import Mathlib

/-!
Shallow embedding of the Mediaoptimise superset visualization plugins
(mo-echarts-pie and mo-echarts-bar): the pure transformation functions that
convert query rows plus user options into echarts configuration objects,
together with theorems settling the behavioural claims about them.

External collaborators of the code (the `formatNumber` helper and the
categorical color scale from `@superset-ui/core`, the echarts renderer) are
modelled as parameters: the transforms only apply them pointwise.
-/

namespace Superset

/-- A scalar cell value of a query-result row (JS number, string or null). -/
inductive Value where
  | num : Int → Value
  | str : String → Value
  | null : Value
deriving DecidableEq, Repr

/-- A row: a flat mapping from column/metric name to scalar value, in key
insertion order (the shape of a JS object). -/
abbrev Row := List (String × Value)

/-- JS property access `d[k]`: `none` models `undefined` (key absent). -/
def rowLookup (d : Row) (k : String) : Option Value :=
  (d.find? (fun p => p.fst == k)).map Prod.snd

/-- The JS `Object.keys(d)` list, in insertion order. -/
def Row.keys (d : Row) : List String := d.map Prod.fst

/-- One `Set.add` step: JS `Set` insertion keeps first-insertion order and ignores
duplicates. -/
def insertKey (s : List String) (k : String) : List String :=
  if k ∈ s then s else s ++ [k]

/-- The Dimension Set: in both transforms,
`keys = data.map(v => Object.keys(v)); keysSets = new Set();
keys.forEach(el => el.forEach(k => keysSets.add(k)))`. The result is the
union of keys observed across all rows, in first-observation order. -/
def dimensions (data : List Row) : List String :=
  (data.map Row.keys).foldl (fun acc ks => ks.foldl insertKey acc) []

/-- A `{name, value}` pair of the pie series data (`value` may be the JS
`undefined` when the row lacks the key). -/
structure NameValue where
  name : String
  value : Option Value
deriving DecidableEq, Repr

/-- Function `transformSeriesData` of mo-echarts-pie/src/plugin/controlPanel.ts:
`data.forEach(d => keysSets.forEach(k =>
  nameValuesChartData.push({ name: k, value: d[k] })))`. -/
def transformSeriesData (data : List Row) : List NameValue :=
  let keysSets := dimensions data
  data.flatMap (fun d => keysSets.map (fun k => { name := k, value := rowLookup d k }))

/-- The `params` object echarts hands to a pie label formatter: the slice
name, its datum value, and the numeric percentage (echarts supplies a
number; `percent + '%'` renders it). -/
structure PieParams where
  name : String
  value : Option Value
  percent : Nat
deriving DecidableEq, Repr

/-- Function `formatPieLabel(params, numberFormat, labelType)` of
mo-echarts-pie/src/plugin/controlPanel.ts. The imported `formatNumber` of
`@superset-ui/core` is passed as the leading parameter. The JS `switch` is
rendered as the equality chain it denotes. -/
def formatPieLabel (formatNumber : String → Option Value → String)
    (params : PieParams) (numberFormat labelType : String) : String :=
  let formattedValue := formatNumber numberFormat params.value
  let formattedPercent := toString params.percent ++ "%"
  if labelType = "key" then params.name
  else if labelType = "value" then formattedValue
  else if labelType = "percent" then formattedPercent
  else if labelType = "key_value" then params.name ++ ": " ++ formattedValue
  else if labelType = "key_value_percent" then
    params.name ++ ": " ++ formattedValue ++ " (" ++ formattedPercent ++ ")"
  else if labelType = "key_percent" then params.name ++ ": " ++ formattedPercent
  else params.name

/-- The pie `title` object. -/
structure Title where
  show_ : Bool
  text : String
  subtext : String
  left : String
deriving DecidableEq, Repr

/-- The pie `tooltip` object; its two formatter fields are functions. -/
structure PieTooltip where
  show_ : Bool
  trigger : String
  formatter : PieParams → String
  valueFormatter : Option Value → String

/-- The pie `legend` object. -/
structure PieLegend where
  show_ : Bool
  orient : String
  left : String
  top : String
deriving DecidableEq, Repr

/-- The pie series radius: a `[inner%, outer%]` pair in donut mode, a single
scalar percentage string otherwise. -/
inductive Radius where
  | pair : String → String → Radius
  | single : String → Radius
deriving DecidableEq, Repr

/-- The `emphasis.label` object of the pie series. -/
structure EmphasisLabel where
  show_ : Bool
  fontSize : String
  fontWeight : String
  formatter : PieParams → String

/-- The `emphasis.itemStyle` object of the pie series. -/
structure EmphasisItemStyle where
  shadowBlur : Nat
  shadowOffsetX : Nat
  shadowColor : String
deriving DecidableEq, Repr

/-- The `emphasis` object of the pie series. -/
structure Emphasis where
  label : EmphasisLabel
  itemStyle : EmphasisItemStyle

/-- The `labelLine` object of the pie series. -/
structure LabelLine where
  show_ : Bool
deriving DecidableEq, Repr

/-- The `label` object of the pie series; `alignTo`/`bleedMargin` are present only in
the labels-outside branch. -/
structure PieLabel where
  show_ : Bool
  formatter : PieParams → String
  position : String
  alignTo : Option String
  bleedMargin : Option Nat

/-- One element of the pie `series` array. -/
structure PieSeries where
  type : String
  radius : Radius
  data : List NameValue
  emphasis : Emphasis
  labelLine : LabelLine
  label : PieLabel
  top : String
  bottom : String
  right : String
  left : String

/-- The chart-options object returned by `buildPieChart`. -/
structure PieChartSpec where
  title : Title
  color : List String
  tooltip : PieTooltip
  legend : PieLegend
  series : List PieSeries

/-- Function `buildPieChart` of mo-echarts-pie/src/plugin/controlPanel.ts.
`formatNumber` models the `@superset-ui/core` import; `colorScaleColors`
models `CategoricalColorNamespace.getScale(colorScheme).colors` (the
transform only reads the `colors` list of the external scale). Remaining
parameters follow the source order. -/
def buildPieChart (formatNumber : String → Option Value → String)
    (colorScaleColors : List String)
    (data : List Row) (chartTitle chartSubTitle : String)
    (showLegend showTitle : Bool) (outerRadius innerRadius : Int)
    (donut : Bool) (numberFormat : String)
    (showLabels labelsOutside labelLine : Bool) (labelPosition : String)
    (showTooltip highlight : Bool)
    (labelType legendVertical legendHorizontal legendOrientation : String)
    (marginTop marginBottom marginRight marginLeft : String) : PieChartSpec :=
  let nameValuesChartData := transformSeriesData data
  let formatter := fun params => formatPieLabel formatNumber params numberFormat labelType
  { title := { show_ := showTitle, text := chartTitle, subtext := chartSubTitle,
               left := "center" },
    color := colorScaleColors,
    tooltip := { show_ := showTooltip, trigger := "item", formatter := formatter,
                 valueFormatter := fun value => formatNumber numberFormat value },
    legend := { show_ := showLegend, orient := legendOrientation,
                left := legendHorizontal, top := legendVertical },
    series := [
      { type := "pie",
        radius := if donut
          then Radius.pair (toString innerRadius ++ "%") (toString outerRadius ++ "%")
          else Radius.single (toString outerRadius ++ "%"),
        data := nameValuesChartData,
        emphasis := {
          label := { show_ := highlight, fontSize := "18", fontWeight := "bold",
                     formatter := formatter },
          itemStyle := { shadowBlur := 10, shadowOffsetX := 0,
                         shadowColor := "rgba(0, 0, 0, 0.5)" } },
        labelLine := if labelsOutside && labelLine
          then { show_ := true } else { show_ := false },
        label := if labelsOutside
          then { show_ := showLabels, formatter := formatter,
                 position := labelPosition, alignTo := some "none",
                 bleedMargin := some 5 }
          else { show_ := showLabels, position := labelPosition,
                 formatter := formatter, alignTo := none, bleedMargin := none },
        top := marginTop, bottom := marginBottom,
        right := marginRight, left := marginLeft } ] }

/-- A bar series `encode` object; `none` models the JS `null`/absent axis. -/
structure Encode where
  x : Option String
  y : Option String
deriving DecidableEq, Repr

/-- The `params` object echarts hands to a bar label formatter:
`params.seriesName`, `params.name` (the category name) and `params.value`
(the source row of the datum). -/
structure BarParams where
  seriesName : String
  name : String
  value : Row
deriving DecidableEq, Repr

/-- A bar series `label` object; `formatter` is a function. -/
structure BarLabel where
  show_ : Bool
  position : String
  formatter : BarParams → String

/-- A bar series `itemStyle` object. -/
structure ItemStyle where
  color : String
deriving DecidableEq, Repr

/-- The `dataset` object of the bar chart options. -/
structure Dataset where
  dimensions : List String
  source : List Row
deriving DecidableEq, Repr

/-- An `xAxis`/`yAxis` object: `⟨none, none⟩` is the empty object `{}`,
the categorical axis is `⟨some "category", some show⟩`. -/
structure Axis where
  type : Option String
  show_ : Option Bool
deriving DecidableEq, Repr

namespace BarPlain

/-- The inner `labelFormatter` closure of `buildEchartOptions` in
mo-echarts-bar/src/plugin/transformProps.ts, lambda-lifted over its
captured `formatNumber`, `numberFormat` and `seriesLabelsFormat`. The JS
`switch` is rendered as the equality chain it denotes. -/
def labelFormatter (formatNumber : String → Option Value → String)
    (numberFormat seriesLabelsFormat : String) (params : BarParams) : String :=
  let value := rowLookup params.value params.seriesName
  let formattedValue := formatNumber numberFormat value
  if seriesLabelsFormat = "seriesNameCategoryValue" then
    params.seriesName ++ " - " ++ params.name ++ " : " ++ formattedValue
  else if seriesLabelsFormat = "seriesNameValue" then
    params.seriesName ++ " : " ++ formattedValue
  else if seriesLabelsFormat = "categoryValue" then
    params.name ++ " : " ++ formattedValue
  else formattedValue

/-- The `legend` object of the plain bar variant. -/
structure Legend where
  show_ : Bool
deriving DecidableEq, Repr

/-- The `tooltip` object of the plain bar variant. -/
structure Tooltip where
  show_ : Bool
deriving DecidableEq, Repr

/-- One element of the plain bar `series` array. -/
structure BarSeries where
  name : String
  type : String
  encode : Encode
  label : BarLabel
  itemStyle : ItemStyle

/-- The chart-options object returned by the plain `buildEchartOptions`. -/
structure BarChartSpec where
  dataset : Dataset
  legend : Legend
  tooltip : Tooltip
  yAxis : Axis
  xAxis : Axis
  series : List BarSeries

/-- Function `buildEchartOptions` of mo-echarts-bar/src/plugin/transformProps.ts.
`formatNumber` models the `@superset-ui/core` import; `colorScale` models
`CategoricalColorNamespace.getScale(colorScheme)` applied to a series name.
Remaining parameters follow the source order. -/
def buildEchartOptions (formatNumber : String → Option Value → String)
    (colorScale : String → String)
    (data : List Row) (cols : String) (invertBars showLegend : Bool)
    (seriesLabelsShow : Bool) (seriesLabelsPosition : String)
    (seriesCategoriesShow : Bool) (numberFormat seriesLabelsFormat : String)
    (showTooltip : Bool) : BarChartSpec :=
  let keysSets := dimensions data
  let yAxisAsCategories : Axis := if invertBars
    then { type := some "category", show_ := some seriesCategoriesShow }
    else { type := none, show_ := none }
  let xAxisAsCategories : Axis := if !invertBars
    then { type := some "category", show_ := some seriesCategoriesShow }
    else { type := none, show_ := none }
  let axisEncoding : Encode := if invertBars
    then { y := some cols, x := none }
    else { x := some cols, y := none }
  let allSeriesConfigs : List BarSeries :=
    (keysSets.filter (fun dim => dim != cols)).map (fun dim =>
      let setValueAxisEncoding := if invertBars
        then { axisEncoding with x := some dim }
        else { axisEncoding with y := some dim }
      { name := dim,
        type := "bar",
        encode := setValueAxisEncoding,
        label := { show_ := seriesLabelsShow, position := seriesLabelsPosition,
                   formatter := labelFormatter formatNumber numberFormat seriesLabelsFormat },
        itemStyle := { color := colorScale dim } })
  { dataset := { dimensions := keysSets, source := data },
    legend := { show_ := showLegend },
    tooltip := { show_ := showTooltip },
    yAxis := yAxisAsCategories,
    xAxis := xAxisAsCategories,
    series := allSeriesConfigs }

end BarPlain

namespace BarRich

/-- The inner `labelFormatter` closure of `buildEchartOptions` in the
richer bar-variant source (identical text to the plain variant's),
lambda-lifted over its captured `formatNumber`, `numberFormat` and
`seriesLabelsFormat`. -/
def labelFormatter (formatNumber : String → Option Value → String)
    (numberFormat seriesLabelsFormat : String) (params : BarParams) : String :=
  let value := rowLookup params.value params.seriesName
  let formattedValue := formatNumber numberFormat value
  if seriesLabelsFormat = "seriesNameCategoryValue" then
    params.seriesName ++ " - " ++ params.name ++ " : " ++ formattedValue
  else if seriesLabelsFormat = "seriesNameValue" then
    params.seriesName ++ " : " ++ formattedValue
  else if seriesLabelsFormat = "categoryValue" then
    params.name ++ " : " ++ formattedValue
  else formattedValue

/-- The object returned by `legendOrientationBuilder`: the `orient` string
plus whichever of the `left`/`right`/`top`/`bottom` offsets the chosen
branch sets (`none` models an absent key). -/
structure LegendPos where
  orient : String
  left : Option Nat
  right : Option Nat
  top : Option Nat
  bottom : Option Nat
deriving DecidableEq, Repr

/-- Function `legendOrientationBuilder` of the richer bar-variant source:
`orient` is `'horizontal'` iff the input is `'top'` or `'bottom'`, else
`'vertical'`; the offset object comes from a `switch` whose `'top'`,
`'right'` and `default` cases share the `{right: 0, top: 0}` branch. -/
def legendOrientationBuilder (legendOrientation : String) : LegendPos :=
  let orient := if legendOrientation = "top" ∨ legendOrientation = "bottom"
    then "horizontal" else "vertical"
  if legendOrientation = "left" then
    { orient := orient, left := some 0, right := none, top := none, bottom := none }
  else if legendOrientation = "bottom" then
    { orient := orient, left := none, right := none, top := none, bottom := some 0 }
  else
    { orient := orient, left := none, right := some 0, top := some 0, bottom := none }

/-- The `legend` object of the richer bar variant:
`{show: showLegend, ...legendOptions}` flattened. -/
structure Legend where
  show_ : Bool
  orient : String
  left : Option Nat
  right : Option Nat
  top : Option Nat
  bottom : Option Nat
deriving DecidableEq, Repr

/-- The `tooltip` object of the richer bar variant; `valueFormatter` is the
closure `value => formatNumber(numberFormat, value)`. -/
structure Tooltip where
  show_ : Bool
  valueFormatter : Option Value → String

/-- The `grid` margin object of the richer bar variant. -/
structure Grid where
  top : String
  bottom : String
  right : String
  left : String
deriving DecidableEq, Repr

/-- One element of the richer bar `series` array; `stack` is
`some "totals"` when stacking is enabled, `none` models an absent key. -/
structure BarSeries where
  name : String
  type : String
  encode : Encode
  label : BarLabel
  itemStyle : ItemStyle
  stack : Option String

/-- The chart-options object returned by the richer `buildEchartOptions`. -/
structure BarChartSpec where
  dataset : Dataset
  legend : Legend
  tooltip : Tooltip
  yAxis : Axis
  xAxis : Axis
  series : List BarSeries
  grid : Grid

/-- Function `buildEchartOptions` of the richer bar-variant source, with the
`stackSeries`, margin and `legendOrientation` parameters. `formatNumber`
and `colorScale` model the external imports as in the plain variant. -/
def buildEchartOptions (formatNumber : String → Option Value → String)
    (colorScale : String → String)
    (data : List Row) (cols : String) (invertBars showLegend : Bool)
    (seriesLabelsShow : Bool) (seriesLabelsPosition : String)
    (seriesCategoriesShow : Bool) (numberFormat seriesLabelsFormat : String)
    (showTooltip stackSeries : Bool)
    (marginTop marginBottom marginRight marginLeft : String)
    (legendOrientation : String) : BarChartSpec :=
  let keysSets := dimensions data
  let yAxisAsCategories : Axis := if invertBars
    then { type := some "category", show_ := some seriesCategoriesShow }
    else { type := none, show_ := none }
  let xAxisAsCategories : Axis := if !invertBars
    then { type := some "category", show_ := some seriesCategoriesShow }
    else { type := none, show_ := none }
  let axisEncoding : Encode := if invertBars
    then { y := some cols, x := none }
    else { x := some cols, y := none }
  let stackSettings : Option String := if stackSeries then some "totals" else none
  let allSeriesConfigs : List BarSeries :=
    (keysSets.filter (fun dim => dim != cols)).map (fun dim =>
      let setValueAxisEncoding := if invertBars
        then { axisEncoding with x := some dim }
        else { axisEncoding with y := some dim }
      { name := dim,
        type := "bar",
        encode := setValueAxisEncoding,
        label := { show_ := seriesLabelsShow, position := seriesLabelsPosition,
                   formatter := labelFormatter formatNumber numberFormat seriesLabelsFormat },
        itemStyle := { color := colorScale dim },
        stack := stackSettings })
  let legendOptions := legendOrientationBuilder legendOrientation
  { dataset := { dimensions := keysSets, source := data },
    legend := { show_ := showLegend, orient := legendOptions.orient,
                left := legendOptions.left, right := legendOptions.right,
                top := legendOptions.top, bottom := legendOptions.bottom },
    tooltip := { show_ := showTooltip,
                 valueFormatter := fun value => formatNumber numberFormat value },
    yAxis := yAxisAsCategories,
    xAxis := xAxisAsCategories,
    series := allSeriesConfigs,
    grid := { top := marginTop, bottom := marginBottom,
              right := marginRight, left := marginLeft } }

end BarRich

/-! ### Helper lemmas about the Dimension Set -/

theorem mem_insertKey {a k : String} {s : List String} :
    a ∈ insertKey s k ↔ a ∈ s ∨ a = k := by
  unfold insertKey
  split
  · rename_i h
    constructor
    · exact Or.inl
    · rintro (h' | rfl)
      · exact h'
      · exact h
  · simp [List.mem_append]

theorem nodup_insertKey {s : List String} (k : String) (h : s.Nodup) :
    (insertKey s k).Nodup := by
  unfold insertKey
  split
  · exact h
  · rename_i hk
    simp [List.nodup_append, h, hk]

theorem mem_foldl_insertKey {a : String} :
    ∀ (ks acc : List String), a ∈ ks.foldl insertKey acc ↔ a ∈ acc ∨ a ∈ ks := by
  intro ks
  induction ks with
  | nil => simp
  | cons k t ih =>
    intro acc
    simp [List.foldl_cons, ih, mem_insertKey, or_assoc]

theorem nodup_foldl_insertKey :
    ∀ (ks acc : List String), acc.Nodup → (ks.foldl insertKey acc).Nodup := by
  intro ks
  induction ks with
  | nil => exact fun _ h => h
  | cons k t ih => exact fun acc h => ih _ (nodup_insertKey k h)

theorem mem_foldl_addKeys {a : String} :
    ∀ (L : List (List String)) (acc : List String),
      a ∈ L.foldl (fun acc ks => ks.foldl insertKey acc) acc ↔
        a ∈ acc ∨ ∃ ks ∈ L, a ∈ ks := by
  intro L
  induction L with
  | nil => simp
  | cons ks t ih =>
    intro acc
    simp [List.foldl_cons, ih, mem_foldl_insertKey, or_assoc]

theorem nodup_foldl_addKeys :
    ∀ (L : List (List String)) (acc : List String), acc.Nodup →
      (L.foldl (fun acc ks => ks.foldl insertKey acc) acc).Nodup := by
  intro L
  induction L with
  | nil => exact fun _ h => h
  | cons ks t ih => exact fun acc h => ih _ (nodup_foldl_insertKey ks acc h)

/-- A key belongs to the Dimension Set iff some row exposes it. -/
theorem mem_dimensions {a : String} {data : List Row} :
    a ∈ dimensions data ↔ ∃ d ∈ data, a ∈ d.keys := by
  unfold dimensions
  rw [mem_foldl_addKeys]
  simp

/-- The Dimension Set never repeats a key. -/
theorem nodup_dimensions (data : List Row) : (dimensions data).Nodup := by
  exact nodup_foldl_addKeys _ _ List.nodup_nil

theorem length_flatMap_map {α β γ : Type} (l : List α) (ks : List β) (g : α → β → γ) :
    (l.flatMap (fun d => ks.map (g d))).length = l.length * ks.length := by
  induction l with
  | nil => simp
  | cons a t ih => simp [ih, Nat.succ_mul, Nat.add_comm]

theorem length_filter_ne_sub_one {l : List String} {a : String}
    (hnd : l.Nodup) (ha : a ∈ l) :
    (l.filter (fun x => x != a)).length = l.length - 1 := by
  induction l with
  | nil => cases ha
  | cons b t ih =>
    rcases List.mem_cons.mp ha with rfl | hat
    · have hbt : a ∉ t := (List.nodup_cons.mp hnd).1
      have hft : t.filter (fun x => x != a) = t := by
        apply List.filter_eq_self.mpr
        intro x hx
        simp only [bne_iff_ne, ne_eq, decide_eq_true_eq]
        rintro rfl
        exact hbt hx
      have hfc : List.filter (fun x => x != a) (a :: t)
          = List.filter (fun x => x != a) t := by
        simp [List.filter_cons]
      rw [hfc, hft, List.length_cons]
      omega
    · have hnd' := (List.nodup_cons.mp hnd).2
      have hba : b ≠ a := by
        rintro rfl
        exact (List.nodup_cons.mp hnd).1 hat
      have hlen : 0 < t.length := List.length_pos.mpr (List.ne_nil_of_mem hat)
      have hfc : List.filter (fun x => x != a) (b :: t)
          = b :: List.filter (fun x => x != a) t := by
        simp [List.filter_cons, bne_iff_ne, hba]
      rw [hfc, List.length_cons, ih hnd' hat, List.length_cons]
      omega

/-! ### Claims -/

/-- C1: for every sequence of input rows, the pie transform's series data
contains exactly (number of rows) × (size of the Dimension Set) NameValue
pairs, and for every row `d` and every key `k` of the Dimension Set
(the category column included — the pie transform excludes nothing) the
pair `{name: k, value: d[k]}` is among them. -/
theorem pie_transform_emits_rows_times_dimensions (data : List Row) :
    (transformSeriesData data).length = data.length * (dimensions data).length ∧
    ∀ d ∈ data, ∀ k ∈ dimensions data,
      ({ name := k, value := rowLookup d k } : NameValue) ∈ transformSeriesData data := by
  constructor
  · unfold transformSeriesData
    exact length_flatMap_map data (dimensions data)
      (fun d k => ({ name := k, value := rowLookup d k } : NameValue))
  · intro d hd k hk
    unfold transformSeriesData
    exact List.mem_flatMap.mpr ⟨d, hd, List.mem_map.mpr ⟨k, hk, rfl⟩⟩

theorem pie_transform_emits_rows_times_dimensions_witness :
    (transformSeriesData [[("a", Value.num 1)], [("b", Value.str "x")]]).length = 2 * 2 ∧
    ({ name := "b", value := rowLookup [("a", Value.num 1)] "b" } : NameValue) ∈
      transformSeriesData [[("a", Value.num 1)], [("b", Value.str "x")]] :=
  ⟨by
    have h := (pie_transform_emits_rows_times_dimensions
      [[("a", Value.num 1)], [("b", Value.str "x")]]).1
    rw [h]
    decide,
   (pie_transform_emits_rows_times_dimensions
      [[("a", Value.num 1)], [("b", Value.str "x")]]).2
      [("a", Value.num 1)] (by decide) "b" (by decide)⟩

/-- C2 counterexample: with the single row `{a: 1}` and the category-column
option `cols = "b"` (a key no row exposes), the plain bar transform
produces 1 series while |Dimension Set| − 1 = 0 — the claimed count fails
when `cols` is not an observed key. -/
theorem bar_series_count_counterexample :
    ¬ ((BarPlain.buildEchartOptions (fun _ _ => "") (fun _ => "")
          [[("a", Value.num 1)]] "b" false false false "" false "" "" false).series.length
        = (dimensions [[("a", Value.num 1)]]).length - 1) := by
  decide

/-- C2 amended: the bar transform produces one series per observed key other
than `cols`; when `cols` is itself an observed key this count is
|Dimension Set| − 1; the series names are pairwise distinct and every
series name is a key observed in some row. -/
theorem bar_series_names_amended
    (formatNumber : String → Option Value → String) (colorScale : String → String)
    (data : List Row) (cols : String) (invertBars showLegend seriesLabelsShow : Bool)
    (seriesLabelsPosition : String) (seriesCategoriesShow : Bool)
    (numberFormat seriesLabelsFormat : String) (showTooltip : Bool) :
    let S := BarPlain.buildEchartOptions formatNumber colorScale data cols invertBars
      showLegend seriesLabelsShow seriesLabelsPosition seriesCategoriesShow
      numberFormat seriesLabelsFormat showTooltip
    S.series.length = ((dimensions data).filter (fun dim => dim != cols)).length ∧
    (cols ∈ dimensions data → S.series.length = (dimensions data).length - 1) ∧
    (S.series.map (fun s => s.name)).Nodup ∧
    (∀ n ∈ S.series.map (fun s => s.name), ∃ d ∈ data, n ∈ d.keys) := by
  have hseries : (BarPlain.buildEchartOptions formatNumber colorScale data cols invertBars
      showLegend seriesLabelsShow seriesLabelsPosition seriesCategoriesShow
      numberFormat seriesLabelsFormat showTooltip).series.map (fun s => s.name)
      = (dimensions data).filter (fun dim => dim != cols) := by
    simp only [BarPlain.buildEchartOptions, List.map_map]
    trans ((dimensions data).filter (fun dim => dim != cols)).map id
    · exact List.map_congr_left (fun a _ => rfl)
    · exact List.map_id _
  refine ⟨?_, ?_, ?_, ?_⟩
  · have := congrArg List.length hseries
    simpa [List.length_map] using this
  · intro hc
    have := congrArg List.length hseries
    rw [List.length_map] at this
    rw [this, length_filter_ne_sub_one (nodup_dimensions data) hc]
  · rw [hseries]
    exact (nodup_dimensions data).filter _
  · intro n hn
    rw [hseries] at hn
    exact mem_dimensions.mp (List.mem_of_mem_filter hn)

theorem bar_series_names_amended_witness :
    (BarPlain.buildEchartOptions (fun _ _ => "") (fun _ => "")
        [[("region", Value.str "A"), ("sales", Value.num 10)]] "region"
        false false false "" false "" "" false).series.length
      = (dimensions [[("region", Value.str "A"), ("sales", Value.num 10)]]).length - 1 ∧
    ∃ d ∈ [[("region", Value.str "A"), ("sales", Value.num 10)]], "sales" ∈ Row.keys d :=
  ⟨(bar_series_names_amended (fun _ _ => "") (fun _ => "")
      [[("region", Value.str "A"), ("sales", Value.num 10)]] "region"
      false false false "" false "" "" false).2.1 (by decide),
   (bar_series_names_amended (fun _ _ => "") (fun _ => "")
      [[("region", Value.str "A"), ("sales", Value.num 10)]] "region"
      false false false "" false "" "" false).2.2.2 "sales" (by decide)⟩

/-- Label-formatter params with name `"A"`, value `10` and a percentage
rendering as `"20%"` (echarts supplies the numeric percent `20`). -/
def pieParamsA : PieParams := { name := "A", value := some (Value.num 10), percent := 20 }

/-- C3: on params (name `"A"`, value `10`, percent rendered `"20%"`),
`formatPieLabel` maps `key` to `"A"`, `value` to the number-formatted
value, `percent` to `"20%"`, `key_value` to `"A: "` + formatted value,
`key_percent` to `"A: 20%"`, `key_value_percent` to `"A: "` + formatted
value + `" (20%)"`, and every other labelType to `"A"`. -/
theorem pie_label_enum (formatNumber : String → Option Value → String)
    (numberFormat : String) :
    formatPieLabel formatNumber pieParamsA numberFormat "key" = "A" ∧
    formatPieLabel formatNumber pieParamsA numberFormat "value"
      = formatNumber numberFormat (some (Value.num 10)) ∧
    formatPieLabel formatNumber pieParamsA numberFormat "percent" = "20%" ∧
    formatPieLabel formatNumber pieParamsA numberFormat "key_value"
      = "A: " ++ formatNumber numberFormat (some (Value.num 10)) ∧
    formatPieLabel formatNumber pieParamsA numberFormat "key_percent" = "A: 20%" ∧
    formatPieLabel formatNumber pieParamsA numberFormat "key_value_percent"
      = "A: " ++ formatNumber numberFormat (some (Value.num 10)) ++ " (" ++ "20%" ++ ")" ∧
    ∀ labelType, labelType ∉ ["key", "value", "percent", "key_value",
        "key_percent", "key_value_percent"] →
      formatPieLabel formatNumber pieParamsA numberFormat labelType = "A" := by
  refine ⟨rfl, rfl, rfl, rfl, rfl, rfl, ?_⟩
  intro lt hlt
  simp only [List.mem_cons, List.mem_singleton, not_or] at hlt
  obtain ⟨h1, h2, h3, h4, h5, h6⟩ := hlt
  simp [formatPieLabel, h1, h2, h3, h4, h5, h6, pieParamsA]

theorem pie_label_enum_witness :
    formatPieLabel (fun _ _ => "V") pieParamsA "fmt" "bogus" = "A" :=
  (pie_label_enum (fun _ _ => "V") "fmt").2.2.2.2.2.2 "bogus" (by decide)

/-- Bar label-formatter params with series name `"s"`, category name
`"cat"`, and a row giving the series the value `7`. -/
def barParamsCat : BarParams :=
  { seriesName := "s", name := "cat", value := [("s", Value.num 7)] }

/-- C4 counterexample: the bar `labelFormatter` does NOT fall back to the
category name: on an unrecognized `seriesLabelsFormat` it returns the
formatted value (here `"7"`), not the category name `"cat"`. -/
theorem bar_label_default_counterexample :
    BarPlain.labelFormatter (fun _ _ => "7") "" "unrecognized" barParamsCat = "7" ∧
    BarPlain.labelFormatter (fun _ _ => "7") "" "unrecognized" barParamsCat ≠ "cat" := by
  constructor
  · rfl
  · decide

/-- C4 amended: on an unrecognized option value the pie formatter falls
back to the category name, while both bar formatters fall back to the
number-formatted value of the series' datum (value-only display), not to
the category name. -/
theorem label_default_cases_amended (formatNumber : String → Option Value → String)
    (numberFormat labelType seriesLabelsFormat : String)
    (pp : PieParams) (bp : BarParams) :
    (labelType ∉ ["key", "value", "percent", "key_value",
        "key_percent", "key_value_percent"] →
      formatPieLabel formatNumber pp numberFormat labelType = pp.name) ∧
    (seriesLabelsFormat ∉ ["seriesNameCategoryValue", "seriesNameValue",
        "categoryValue"] →
      BarPlain.labelFormatter formatNumber numberFormat seriesLabelsFormat bp
        = formatNumber numberFormat (rowLookup bp.value bp.seriesName) ∧
      BarRich.labelFormatter formatNumber numberFormat seriesLabelsFormat bp
        = formatNumber numberFormat (rowLookup bp.value bp.seriesName)) := by
  constructor
  · intro hlt
    simp only [List.mem_cons, List.mem_singleton, not_or] at hlt
    obtain ⟨h1, h2, h3, h4, h5, h6⟩ := hlt
    simp [formatPieLabel, h1, h2, h3, h4, h5, h6]
  · intro hfmt
    simp only [List.mem_cons, List.mem_singleton, not_or] at hfmt
    obtain ⟨h1, h2, h3⟩ := hfmt
    constructor
    · simp [BarPlain.labelFormatter, h1, h2, h3]
    · simp [BarRich.labelFormatter, h1, h2, h3]

theorem label_default_cases_amended_witness :
    formatPieLabel (fun _ _ => "7") pieParamsA "" "bogus" = pieParamsA.name ∧
    BarPlain.labelFormatter (fun _ _ => "7") "" "bogus" barParamsCat
      = (fun (_ : String) (_ : Option Value) => "7") ""
          (rowLookup barParamsCat.value barParamsCat.seriesName) :=
  ⟨(label_default_cases_amended (fun _ _ => "7") "" "bogus" "bogus"
      pieParamsA barParamsCat).1 (by decide),
   ((label_default_cases_amended (fun _ _ => "7") "" "bogus" "bogus"
      pieParamsA barParamsCat).2 (by decide)).1⟩

/-- C5: the legend-orientation builder maps `top` to horizontal with
`right: 0, top: 0`, `bottom` to horizontal with `bottom: 0`, `left` to
vertical with `left: 0`, `right` to vertical with `right: 0, top: 0`, and
every other input to the same result as `right`. -/
theorem legend_orientation_mapping :
    BarRich.legendOrientationBuilder "top"
      = { orient := "horizontal", left := none, right := some 0,
          top := some 0, bottom := none } ∧
    BarRich.legendOrientationBuilder "bottom"
      = { orient := "horizontal", left := none, right := none,
          top := none, bottom := some 0 } ∧
    BarRich.legendOrientationBuilder "left"
      = { orient := "vertical", left := some 0, right := none,
          top := none, bottom := none } ∧
    BarRich.legendOrientationBuilder "right"
      = { orient := "vertical", left := none, right := some 0,
          top := some 0, bottom := none } ∧
    ∀ s, s ∉ ["top", "bottom", "left", "right"] →
      BarRich.legendOrientationBuilder s = BarRich.legendOrientationBuilder "right" := by
  refine ⟨by decide, by decide, by decide, by decide, ?_⟩
  intro s hs
  simp only [List.mem_cons, List.mem_singleton, not_or] at hs
  obtain ⟨h1, h2, h3, h4⟩ := hs
  simp [BarRich.legendOrientationBuilder, h1, h2, h3, h4]

theorem legend_orientation_mapping_witness :
    BarRich.legendOrientationBuilder "diagonal"
      = BarRich.legendOrientationBuilder "right" :=
  legend_orientation_mapping.2.2.2.2 "diagonal" (by decide)

/-- C6: the `invertBars` toggle swaps which axis is categorical. With
`invertBars = false` the x axis is `{type: 'category', show:
seriesCategoriesShow}`, the y axis is `{}`, and every series encodes x to
the `cols` category column and y to its own metric dimension; with
`invertBars = true` the roles are exactly swapped. Both bar variants
behave alike; the categorical axis `show` flag equals the independent
`seriesCategoriesShow` option in all cases. -/
theorem bar_axis_inversion
    (formatNumber : String → Option Value → String) (colorScale : String → String)
    (data : List Row) (cols : String) (invertBars showLegend seriesLabelsShow : Bool)
    (seriesLabelsPosition : String) (seriesCategoriesShow : Bool)
    (numberFormat seriesLabelsFormat : String) (showTooltip stackSeries : Bool)
    (marginTop marginBottom marginRight marginLeft legendOrientation : String) :
    let P := BarPlain.buildEchartOptions formatNumber colorScale data cols invertBars
      showLegend seriesLabelsShow seriesLabelsPosition seriesCategoriesShow
      numberFormat seriesLabelsFormat showTooltip
    let R := BarRich.buildEchartOptions formatNumber colorScale data cols invertBars
      showLegend seriesLabelsShow seriesLabelsPosition seriesCategoriesShow
      numberFormat seriesLabelsFormat showTooltip stackSeries
      marginTop marginBottom marginRight marginLeft legendOrientation
    (invertBars = false →
      P.xAxis = { type := some "category", show_ := some seriesCategoriesShow } ∧
      P.yAxis = { type := none, show_ := none } ∧
      P.series.map (fun s => s.encode)
        = P.series.map (fun s => { x := some cols, y := some s.name }) ∧
      R.xAxis = { type := some "category", show_ := some seriesCategoriesShow } ∧
      R.yAxis = { type := none, show_ := none } ∧
      R.series.map (fun s => s.encode)
        = R.series.map (fun s => { x := some cols, y := some s.name })) ∧
    (invertBars = true →
      P.yAxis = { type := some "category", show_ := some seriesCategoriesShow } ∧
      P.xAxis = { type := none, show_ := none } ∧
      P.series.map (fun s => s.encode)
        = P.series.map (fun s => { y := some cols, x := some s.name }) ∧
      R.yAxis = { type := some "category", show_ := some seriesCategoriesShow } ∧
      R.xAxis = { type := none, show_ := none } ∧
      R.series.map (fun s => s.encode)
        = R.series.map (fun s => { y := some cols, x := some s.name })) := by
  constructor
  · rintro rfl
    refine ⟨rfl, rfl, ?_, rfl, rfl, ?_⟩
    · simp only [BarPlain.buildEchartOptions, List.map_map]
      exact List.map_congr_left (fun dim _ => rfl)
    · simp only [BarRich.buildEchartOptions, List.map_map]
      exact List.map_congr_left (fun dim _ => rfl)
  · rintro rfl
    refine ⟨rfl, rfl, ?_, rfl, rfl, ?_⟩
    · simp only [BarPlain.buildEchartOptions, List.map_map]
      exact List.map_congr_left (fun dim _ => rfl)
    · simp only [BarRich.buildEchartOptions, List.map_map]
      exact List.map_congr_left (fun dim _ => rfl)

theorem bar_axis_inversion_witness :
    (BarPlain.buildEchartOptions (fun _ _ => "") (fun _ => "")
        [[("region", Value.str "A"), ("sales", Value.num 10)]] "region"
        false false false "" true "" "" false).xAxis
      = { type := some "category", show_ := some true } ∧
    (BarPlain.buildEchartOptions (fun _ _ => "") (fun _ => "")
        [[("region", Value.str "A"), ("sales", Value.num 10)]] "region"
        true false false "" true "" "" false).yAxis
      = { type := some "category", show_ := some true } :=
  ⟨((bar_axis_inversion (fun _ _ => "") (fun _ => "")
      [[("region", Value.str "A"), ("sales", Value.num 10)]] "region"
      false false false "" true "" "" false false "" "" "" "" "").1 rfl).1,
   ((bar_axis_inversion (fun _ _ => "") (fun _ => "")
      [[("region", Value.str "A"), ("sales", Value.num 10)]] "region"
      true false false "" true "" "" false false "" "" "" "" "").2 rfl).1⟩

/-- The two-row scenario of the specification's end-to-end test. -/
def demoRows : List Row :=
  [[("region", Value.str "A"), ("sales", Value.num 10)],
   [("region", Value.str "B"), ("sales", Value.num 20)]]

/-- The plain bar transform applied to the end-to-end scenario:
`cols = "region"`, `invertBars = false`, the rest defaults. -/
def demoBarSpec : BarPlain.BarChartSpec :=
  BarPlain.buildEchartOptions (fun _ _ => "") (fun _ => "c") demoRows "region"
    false true true "top" true "" "" true

/-- C7: on rows `[{region:"A", sales:10}, {region:"B", sales:20}]` with
`cols = "region"` and `invertBars = false`, the bar transform produces
exactly one series, named `sales`; the dataset source is the two input
rows in their original order; and the x axis has type `category`. -/
theorem bar_end_to_end_scenario :
    demoBarSpec.series.map (fun s => s.name) = ["sales"] ∧
    demoBarSpec.dataset.source = demoRows ∧
    demoBarSpec.xAxis.type = some "category" := by
  refine ⟨?_, ?_, ?_⟩ <;> decide

/-- C8: for all numeric inner/outer radius values, the pie series radius is
the pair `[innerRadius%, outerRadius%]` when the donut option is true and
the single scalar `outerRadius%` when it is false. -/
theorem pie_radius_donut
    (formatNumber : String → Option Value → String) (colorScaleColors : List String)
    (data : List Row) (chartTitle chartSubTitle : String)
    (showLegend showTitle : Bool) (outerRadius innerRadius : Int)
    (donut : Bool) (numberFormat : String)
    (showLabels labelsOutside labelLine : Bool) (labelPosition : String)
    (showTooltip highlight : Bool)
    (labelType legendVertical legendHorizontal legendOrientation : String)
    (marginTop marginBottom marginRight marginLeft : String) :
    let S := buildPieChart formatNumber colorScaleColors data chartTitle chartSubTitle
      showLegend showTitle outerRadius innerRadius donut numberFormat
      showLabels labelsOutside labelLine labelPosition showTooltip highlight
      labelType legendVertical legendHorizontal legendOrientation
      marginTop marginBottom marginRight marginLeft
    (donut = true → S.series.map (fun s => s.radius)
        = [Radius.pair (toString innerRadius ++ "%") (toString outerRadius ++ "%")]) ∧
    (donut = false → S.series.map (fun s => s.radius)
        = [Radius.single (toString outerRadius ++ "%")]) := by
  constructor
  · rintro rfl
    rfl
  · rintro rfl
    rfl

theorem pie_radius_donut_witness :
    (buildPieChart (fun _ _ => "") [] [] "" "" false false 50 20 true ""
        false false false "" false false "" "" "" "" "" "" "" "").series.map
      (fun s => s.radius)
      = [Radius.pair (toString (20 : Int) ++ "%") (toString (50 : Int) ++ "%")] :=
  (pie_radius_donut (fun _ _ => "") [] [] "" "" false false 50 20 true ""
    false false false "" false false "" "" "" "" "" "" "" "").1 rfl

/-- The full input of the pie transform: the modelled externals
(`formatNumber` and the color scale's `colors`), the rows and every
option, bundled for stating invocation-level properties. -/
structure PieArgs where
  formatNumber : String → Option Value → String
  colorScaleColors : List String
  data : List Row
  chartTitle : String
  chartSubTitle : String
  showLegend : Bool
  showTitle : Bool
  outerRadius : Int
  innerRadius : Int
  donut : Bool
  numberFormat : String
  showLabels : Bool
  labelsOutside : Bool
  labelLine : Bool
  labelPosition : String
  showTooltip : Bool
  highlight : Bool
  labelType : String
  legendVertical : String
  legendHorizontal : String
  legendOrientation : String
  marginTop : String
  marginBottom : String
  marginRight : String
  marginLeft : String

/-- Function `buildPieChart` on a bundled input. -/
def buildPieChartOn (a : PieArgs) : PieChartSpec :=
  buildPieChart a.formatNumber a.colorScaleColors a.data a.chartTitle a.chartSubTitle
    a.showLegend a.showTitle a.outerRadius a.innerRadius a.donut a.numberFormat
    a.showLabels a.labelsOutside a.labelLine a.labelPosition a.showTooltip
    a.highlight a.labelType a.legendVertical a.legendHorizontal a.legendOrientation
    a.marginTop a.marginBottom a.marginRight a.marginLeft

/-- The full input of the richer bar transform, bundled as for the pie. -/
structure BarArgs where
  formatNumber : String → Option Value → String
  colorScale : String → String
  data : List Row
  cols : String
  invertBars : Bool
  showLegend : Bool
  seriesLabelsShow : Bool
  seriesLabelsPosition : String
  seriesCategoriesShow : Bool
  numberFormat : String
  seriesLabelsFormat : String
  showTooltip : Bool
  stackSeries : Bool
  marginTop : String
  marginBottom : String
  marginRight : String
  marginLeft : String
  legendOrientation : String

/-- The richer `buildEchartOptions` on a bundled input. -/
def buildEchartOptionsOn (a : BarArgs) : BarRich.BarChartSpec :=
  BarRich.buildEchartOptions a.formatNumber a.colorScale a.data a.cols a.invertBars
    a.showLegend a.seriesLabelsShow a.seriesLabelsPosition a.seriesCategoriesShow
    a.numberFormat a.seriesLabelsFormat a.showTooltip a.stackSeries
    a.marginTop a.marginBottom a.marginRight a.marginLeft a.legendOrientation

/-- C9: both transforms are deterministic: two invocations on structurally
identical rows, options and external collaborators (number formatter and
color scale) produce structurally identical ChartSpec objects. The
transforms are embedded as pure functions — the source builds its output
from fresh object literals, array `map`/`filter`/`push` and spreads, and
never writes to its inputs or to any outer state. -/
theorem transforms_deterministic (p q : PieArgs) (r s : BarArgs)
    (hpq : p = q) (hrs : r = s) :
    buildPieChartOn p = buildPieChartOn q ∧
    buildEchartOptionsOn r = buildEchartOptionsOn s := by
  subst hpq
  subst hrs
  exact ⟨rfl, rfl⟩

theorem transforms_deterministic_witness :
    buildPieChartOn
        { formatNumber := fun _ _ => "", colorScaleColors := [], data := demoRows,
          chartTitle := "t", chartSubTitle := "s", showLegend := true,
          showTitle := true, outerRadius := 50, innerRadius := 20, donut := false,
          numberFormat := "", showLabels := true, labelsOutside := false,
          labelLine := false, labelPosition := "outside", showTooltip := true,
          highlight := false, labelType := "key", legendVertical := "",
          legendHorizontal := "", legendOrientation := "", marginTop := "",
          marginBottom := "", marginRight := "", marginLeft := "" }
      = buildPieChartOn
        { formatNumber := fun _ _ => "", colorScaleColors := [], data := demoRows,
          chartTitle := "t", chartSubTitle := "s", showLegend := true,
          showTitle := true, outerRadius := 50, innerRadius := 20, donut := false,
          numberFormat := "", showLabels := true, labelsOutside := false,
          labelLine := false, labelPosition := "outside", showTooltip := true,
          highlight := false, labelType := "key", legendVertical := "",
          legendHorizontal := "", legendOrientation := "", marginTop := "",
          marginBottom := "", marginRight := "", marginLeft := "" } ∧
    buildEchartOptionsOn
        { formatNumber := fun _ _ => "", colorScale := fun _ => "", data := demoRows,
          cols := "region", invertBars := false, showLegend := true,
          seriesLabelsShow := true, seriesLabelsPosition := "top",
          seriesCategoriesShow := true, numberFormat := "",
          seriesLabelsFormat := "", showTooltip := true, stackSeries := false,
          marginTop := "", marginBottom := "", marginRight := "",
          marginLeft := "", legendOrientation := "top" }
      = buildEchartOptionsOn
        { formatNumber := fun _ _ => "", colorScale := fun _ => "", data := demoRows,
          cols := "region", invertBars := false, showLegend := true,
          seriesLabelsShow := true, seriesLabelsPosition := "top",
          seriesCategoriesShow := true, numberFormat := "",
          seriesLabelsFormat := "", showTooltip := true, stackSeries := false,
          marginTop := "", marginBottom := "", marginRight := "",
          marginLeft := "", legendOrientation := "top" } :=
  transforms_deterministic _ _ _ _ rfl rfl

/-- Forget the `stack` field of a richer-variant bar series, keeping name,
type, encode, label configuration and itemStyle color. -/
def dropStack (s : BarRich.BarSeries) : BarPlain.BarSeries :=
  { name := s.name, type := s.type, encode := s.encode,
    label := s.label, itemStyle := s.itemStyle }

/-- C10: on every common input the richer bar variant agrees with the
plain one on the dataset (same dimensions in the same order, same source
rows), on both axes, and element-wise on the series' name, type, encode,
label configuration and itemStyle color; in addition each of its series
carries `stack = 'totals'` exactly when `stackSeries` is true and no
`stack` key otherwise. -/
theorem bar_variants_refinement
    (formatNumber : String → Option Value → String) (colorScale : String → String)
    (data : List Row) (cols : String) (invertBars showLegend seriesLabelsShow : Bool)
    (seriesLabelsPosition : String) (seriesCategoriesShow : Bool)
    (numberFormat seriesLabelsFormat : String) (showTooltip stackSeries : Bool)
    (marginTop marginBottom marginRight marginLeft legendOrientation : String) :
    let P := BarPlain.buildEchartOptions formatNumber colorScale data cols invertBars
      showLegend seriesLabelsShow seriesLabelsPosition seriesCategoriesShow
      numberFormat seriesLabelsFormat showTooltip
    let R := BarRich.buildEchartOptions formatNumber colorScale data cols invertBars
      showLegend seriesLabelsShow seriesLabelsPosition seriesCategoriesShow
      numberFormat seriesLabelsFormat showTooltip stackSeries
      marginTop marginBottom marginRight marginLeft legendOrientation
    R.dataset = P.dataset ∧ R.xAxis = P.xAxis ∧ R.yAxis = P.yAxis ∧
    R.series.map dropStack = P.series ∧
    (stackSeries = true → R.series.map (fun s => s.stack)
        = List.replicate R.series.length (some "totals")) ∧
    (stackSeries = false → R.series.map (fun s => s.stack)
        = List.replicate R.series.length none) := by
  refine ⟨rfl, rfl, rfl, ?_, ?_, ?_⟩
  · simp only [BarRich.buildEchartOptions, BarPlain.buildEchartOptions, List.map_map]
    exact List.map_congr_left (fun dim _ => rfl)
  · rintro rfl
    simp only [BarRich.buildEchartOptions, List.map_map, List.length_map]
    induction (dimensions data).filter (fun dim => dim != cols) with
    | nil => rfl
    | cons a t ih =>
      rw [List.map_cons, List.length_cons, List.replicate_succ, ih]
      rfl
  · rintro rfl
    simp only [BarRich.buildEchartOptions, List.map_map, List.length_map]
    induction (dimensions data).filter (fun dim => dim != cols) with
    | nil => rfl
    | cons a t ih =>
      rw [List.map_cons, List.length_cons, List.replicate_succ, ih]
      rfl

theorem bar_variants_refinement_witness :
    (BarRich.buildEchartOptions (fun _ _ => "") (fun _ => "c") demoRows "region"
        false true true "top" true "" "" true false "" "" "" "" "top").series.map dropStack
      = (BarPlain.buildEchartOptions (fun _ _ => "") (fun _ => "c") demoRows "region"
        false true true "top" true "" "" true).series ∧
    (BarRich.buildEchartOptions (fun _ _ => "") (fun _ => "c") demoRows "region"
        false true true "top" true "" "" true true "" "" "" "" "top").series.map
        (fun s => s.stack)
      = List.replicate
          (BarRich.buildEchartOptions (fun _ _ => "") (fun _ => "c") demoRows "region"
            false true true "top" true "" "" true true "" "" "" "" "top").series.length
          (some "totals") :=
  ⟨(bar_variants_refinement (fun _ _ => "") (fun _ => "c") demoRows "region"
      false true true "top" true "" "" true false "" "" "" "" "top").2.2.2.1,
   (bar_variants_refinement (fun _ _ => "") (fun _ => "c") demoRows "region"
      false true true "top" true "" "" true true "" "" "" "" "top").2.2.2.2.1 rfl⟩

end Superset
